import Mathlib

/-!
# Payment state reconciliation engine — shallow embedding

Shallow embedding of the payment backend's reconciliation engine:
the transaction routes (`create-transaction`, the provider `notification`
webhook, `check-status`, `create-order`, `payment-url`) and the booking
status-update route, together with the document store and the payment
provider as the code uses them.

Modelling conventions:
* Firestore documents are Lean structures; a field the code may leave
  absent on a document is an `Option` field (absent = `none`).
* Collections are functions `String → Option doc`; a write replaces the
  entry at one key.
* Server timestamps are a `Nat` counter on the store (`now`), bumped by
  each handler that writes.
* A Firestore batch is atomic: it fails without mutating anything when a
  targeted document does not exist (`update` on a missing document fails
  the whole batch) or when a written value is `undefined` in JS (the
  client rejects the write); otherwise all its writes apply together.
* The payment provider is a record of the transactions it holds plus
  counters of create/status calls; `createTransaction` hands out a fresh
  token each time, `transaction.status` looks up the held transaction.
  A `createFails` flag selects the provider-failure behaviour.
* JS truthiness on strings (`if (x)`) is `truthy`: present and non-empty.
-/

namespace BeKlinik

/-- Pointwise update of a string-keyed collection. -/
def upd {α : Type} (f : String → Option α) (k : String) (v : Option α) :
    String → Option α :=
  fun x => if x = k then v else f x

@[simp] theorem upd_same {α : Type} (f : String → Option α) (k : String)
    (v : Option α) : upd f k v k = v := by
  simp [upd]

theorem upd_ne {α : Type} (f : String → Option α) (k x : String)
    (v : Option α) (h : x ≠ k) : upd f k v x = f x := by
  simp [upd, h]

/-- JS string truthiness: an absent field and the empty string are falsy. -/
def truthy : Option String → Bool
  | none => false
  | some v => v ≠ ""

/-- Document in the `transactions` collection (routes/transaction.js). -/
structure TransactionDoc where
  orderId : String
  bookingId : Option String := none
  amount : Nat
  customer_details : Option String := none
  userId : Option String := none
  status : String
  payment_type : Option String := none
  paymentStatus : Option String := none
  tagihanStatus : Option String := none
  snap_token : Option String := none
  redirect_url : Option String := none
  payment_url : Option String := none
  midtrans_created : Bool := false
  midtrans_status : Option String := none
  updatedAt : Nat
  deriving Repr, DecidableEq

/-- Document in the `orders` collection. The reconciliation batch writes
only `paymentStatus`, `status` and the timestamp onto an order; no code
path ever writes a billing-status field on an order, so `tagihanStatus`
models the (permanently absent unless seeded) billing field. -/
structure OrderDoc where
  bookingId : String
  orderId : String
  amount : Nat
  customerDetails : Option String := none
  paymentType : Option String := none
  userId : String
  status : String
  paymentStatus : Option String := none
  tagihanStatus : Option String := none
  updatedAt : Nat
  deriving Repr, DecidableEq

/-- Document in the `tagihan` (billing statement) collection. Its single
`status` field receives the billing component; no code path writes a
`paymentStatus` field on a tagihan, so that field models permanent
absence. -/
structure TagihanDoc where
  orderId : String
  bookingId : String
  amount : Nat
  status : String
  paymentStatus : Option String := none
  userId : String
  updatedAt : Nat
  deriving Repr, DecidableEq

/-- Document in the `bookings` collection (routes/booking.js creates it
with `status` and `paymentStatus`; the reconciliation batch also writes
`tagihanStatus`). -/
structure BookingDoc where
  bookingId : String
  doctorId : String
  pasienId : String
  appointmentDate : String
  appointmentTime : String
  serviceType : String
  status : String
  paymentStatus : String
  tagihanStatus : Option String := none
  updatedAt : Nat
  deriving Repr, DecidableEq

/-- The document store: the four collections plus the timestamp counter. -/
structure Store where
  transactions : String → Option TransactionDoc
  orders : String → Option OrderDoc
  tagihan : String → Option TagihanDoc
  bookings : String → Option BookingDoc
  now : Nat

/-- A transaction as held by the payment provider: the snap token and
redirect URL issued at creation, and its current transaction status. -/
structure ProviderTxn where
  snap_token : String
  redirect_url : String
  transaction_status : String
  deriving Repr, DecidableEq

/-- The payment provider: held transactions, a fresh-token supply, call
counters, and a flag making `createTransaction` fail. -/
structure Provider where
  txns : String → Option ProviderTxn
  nextToken : Nat
  createCalls : Nat
  statusCalls : Nat
  createFails : Bool

def freshToken (n : Nat) : String := "tok-" ++ toString n

def freshRedirect (n : Nat) : String := "redir-" ++ toString n

/-- `snap.createTransaction`: on success issues a fresh token/redirect
URL and records the transaction under its order id; on failure returns
nothing. Either way it is one create call. -/
def providerCreate (p : Provider) (orderId : String) :
    Provider × Option (String × String) :=
  if p.createFails then
    ({ p with createCalls := p.createCalls + 1 }, none)
  else
    let tok := freshToken p.nextToken
    let ru := freshRedirect p.nextToken
    ({ p with
        txns := upd p.txns orderId (some ⟨tok, ru, "pending"⟩),
        nextToken := p.nextToken + 1,
        createCalls := p.createCalls + 1 }, some (tok, ru))

/-- The status-mapping variables of both ingestion paths:
`status`, `paymentStatus`, `tagihanStatus`, initialised from the stored
transaction document. -/
structure StatusTriple where
  status : String
  paymentStatus : Option String
  tagihanStatus : Option String
  deriving Repr, DecidableEq

/-- The provider-status-to-domain-status mapping, exactly as written
(identically) in the `/notification` and `/check-status/:orderId`
handlers: capture/settlement, pending, and cancel/deny/expire branches;
any other provider status leaves the prior values. -/
def mapStatus (prior : StatusTriple) (transactionStatus : String) : StatusTriple :=
  if transactionStatus = "capture" ∨ transactionStatus = "settlement" then
    { status := "confirmed", paymentStatus := some "Berhasil",
      tagihanStatus := some "Berhasil" }
  else if transactionStatus = "pending" then
    { status := "pending", paymentStatus := some "unpaid",
      tagihanStatus := some "unpaid" }
  else if transactionStatus = "cancel" ∨ transactionStatus = "deny" ∨
      transactionStatus = "expire" then
    { status := "cancelled", paymentStatus := some "failed",
      tagihanStatus := some "failed" }
  else prior

/-- The four-document reconciliation batch shared (textually identical)
by both ingestion paths: update transaction (triple + raw payload),
order (status/paymentStatus), tagihan (status := billing component) and
booking (triple). Atomic: it yields `none` — mutating nothing — when a
targeted document is missing or a written value would be `undefined`
(absent `paymentStatus`/`tagihanStatus` under an unrecognized provider
status). -/
def applyBatch (s : Store) (orderId bookingId : String) (t : StatusTriple)
    (payload : String) : Option Store :=
  match s.transactions orderId, s.orders orderId, s.tagihan orderId,
      s.bookings bookingId with
  | some txn, some ord, some tg, some bk =>
    match t.paymentStatus, t.tagihanStatus with
    | some pay, some tgst =>
      some { s with
        transactions := upd s.transactions orderId (some { txn with
          paymentStatus := some pay, status := t.status,
          tagihanStatus := some tgst, midtrans_status := some payload,
          updatedAt := s.now }),
        orders := upd s.orders orderId (some { ord with
          paymentStatus := some pay, status := t.status, updatedAt := s.now }),
        tagihan := upd s.tagihan orderId (some { tg with
          status := tgst, updatedAt := s.now }),
        bookings := upd s.bookings bookingId (some { bk with
          paymentStatus := pay, status := t.status,
          tagihanStatus := some tgst, updatedAt := s.now }),
        now := s.now + 1 }
    | _, _ => none
  | _, _, _, _ => none

/-- Outcome of the webhook handler as seen by the provider. -/
inductive WebhookResult where
  | ok
  | err (code : Nat) (msg : String)
  deriving Repr, DecidableEq

/-- `POST /notification` (webhook ingestion path): read transaction
(throwing — hence the generic 500 — when absent), read order (404 when
absent), map the provider status from the transaction's stored triple,
and commit the four-document batch; a batch failure surfaces as the
generic 500. -/
def notificationHandler (s : Store) (orderId transactionStatus : String) :
    Store × WebhookResult :=
  match s.transactions orderId with
  | none => (s, .err 500 "Failed to process notification")
  | some txn =>
    match s.orders orderId with
    | none => (s, .err 404 "Order not found")
    | some ord =>
      let t := mapStatus ⟨txn.status, txn.paymentStatus, txn.tagihanStatus⟩
        transactionStatus
      match applyBatch s orderId ord.bookingId t transactionStatus with
      | some s2 => (s2, .ok)
      | none => (s, .err 500 "Failed to process notification")

/-- The data object of a `GET /check-status/:orderId` success response:
the transaction view is built from the handler's local variables, while
order/tagihan/booking are document fetches made after the commit. -/
structure CheckStatusData where
  orderId : String
  status : String
  paymentStatus : Option String
  tagihanStatus : Option String
  isLocalStatus : Bool
  order : Option OrderDoc
  tagihan : Option TagihanDoc
  booking : Option BookingDoc
  deriving Repr, DecidableEq

inductive CheckStatusResult where
  | ok (d : CheckStatusData)
  | err (code : Nat) (msg : String)
  deriving Repr, DecidableEq

/-- Whether a check-status outcome is a success response. -/
def CheckStatusResult.isOk : CheckStatusResult → Bool
  | .ok _ => true
  | .err _ _ => false

/-- Tail of the check-status handler: fetch the latest order, tagihan and
booking documents from the (possibly updated) store and assemble the
response around the local status variables. -/
def finishCheck (s : Store) (p : Provider) (orderId bookingId : String)
    (t : StatusTriple) (isLocal : Bool) : Store × Provider × CheckStatusResult :=
  let d : CheckStatusData :=
    { orderId := orderId, status := t.status,
      paymentStatus := t.paymentStatus, tagihanStatus := t.tagihanStatus,
      isLocalStatus := isLocal, order := s.orders orderId,
      tagihan := s.tagihan orderId, booking := s.bookings bookingId }
  (s, p, .ok d)

/-- `GET /check-status/:orderId` (poll ingestion path): 404 when the
transaction or order is missing; when the transaction carries a (truthy)
snap token, query the provider's status — a failed lookup falls back to
the local status; on a successful lookup map the status and attempt the
batch, continuing with the locally computed values even when the commit
fails; finally answer with fresh fetches of order/tagihan/booking around
the local transaction view. -/
def checkStatusHandler (s : Store) (p : Provider) (orderId : String) :
    Store × Provider × CheckStatusResult :=
  match s.transactions orderId with
  | none => (s, p, .err 404 "Transaction not found")
  | some txn =>
    match s.orders orderId with
    | none => (s, p, .err 404 "Order not found")
    | some ord =>
      let prior : StatusTriple :=
        ⟨txn.status, txn.paymentStatus, txn.tagihanStatus⟩
      if truthy txn.snap_token then
        let p2 := { p with statusCalls := p.statusCalls + 1 }
        match p.txns orderId with
        | none => finishCheck s p2 orderId ord.bookingId prior true
        | some ptxn =>
          let t := mapStatus prior ptxn.transaction_status
          match applyBatch s orderId ord.bookingId t
              ptxn.transaction_status with
          | some s2 => finishCheck s2 p2 orderId ord.bookingId t false
          | none => finishCheck s p2 orderId ord.bookingId t false
      else
        finishCheck s p orderId ord.bookingId prior true

/-- Request body of `POST /create-transaction` (required fields present). -/
structure CreateTxRequest where
  bookingId : String
  orderId : String
  amount : Nat
  customer_details : String
  payment_type : Option String := none
  deriving Repr, DecidableEq

/-- The `{order, tagihan, transaction}` data of a creation response. -/
structure CreateTxData where
  order : OrderDoc
  tagihan : TagihanDoc
  txn : TransactionDoc
  deriving Repr, DecidableEq

inductive CreateTxResult where
  | ok (d : CreateTxData)
  | err (code : Nat) (msg : String)
  deriving Repr, DecidableEq

/-- Whether a creation outcome is a success response. -/
def CreateTxResult.isOk : CreateTxResult → Bool
  | .ok _ => true
  | .err _ _ => false

/-- The snap token and redirect URL carried by a creation response. -/
def CreateTxResult.snapOf : CreateTxResult → Option (Option String × Option String)
  | .ok d => some (d.txn.snap_token, d.txn.redirect_url)
  | .err _ _ => none

def paymentUrlOf (tok : String) : String :=
  "https://app.midtrans.com/snap/v2/vtweb/" ++ tok

/-- Step 4 of `POST /create-transaction`: create the transaction document
with the snap data, or update an existing one with the snap data, and
answer 201 with the three records. -/
def finishCreateTx (s : Store) (p : Provider) (uid : String)
    (r : CreateTxRequest) (ord : OrderDoc) (tg : TagihanDoc) (tok ru : String) :
    Store × Provider × CreateTxResult :=
  match s.transactions r.orderId with
  | none =>
    let t : TransactionDoc :=
      { orderId := r.orderId,
        bookingId := some r.bookingId, amount := r.amount,
        customer_details := some r.customer_details, userId := some uid,
        status := "pending", payment_type := r.payment_type,
        snap_token := some tok, redirect_url := some ru,
        payment_url := some (paymentUrlOf tok), midtrans_created := true,
        updatedAt := s.now }
    ({ s with transactions := upd s.transactions r.orderId (some t),
              now := s.now + 1 }, p, .ok { order := ord, tagihan := tg, txn := t })
  | some t0 =>
    let t :=
      { t0 with
        snap_token := some tok, redirect_url := some ru,
        payment_url := some (paymentUrlOf tok), midtrans_created := true,
        updatedAt := s.now }
    ({ s with transactions := upd s.transactions r.orderId (some t),
              now := s.now + 1 }, p, .ok { order := ord, tagihan := tg, txn := t })

/-- `POST /create-transaction`: get-or-create the order (403 when owned
by another user), get-or-create the tagihan, query the provider for an
existing transaction; when absent, issue a create call — a failure
answers 500 with the optimistically created order/tagihan left in place —
and when present, reuse its token/redirect URL; then write the
transaction document. -/
def createTransactionHandler (s : Store) (p : Provider) (uid : String)
    (r : CreateTxRequest) : Store × Provider × CreateTxResult :=
  match s.orders r.orderId with
  | some o =>
    if o.userId = uid then
      createTransactionTagihan s p uid r o
    else
      (s, p, .err 403 "Access denied")
  | none =>
    let o : OrderDoc :=
      { bookingId := r.bookingId, orderId := r.orderId,
        amount := r.amount, userId := uid, status := "pending",
        updatedAt := s.now }
    createTransactionTagihan
      { s with orders := upd s.orders r.orderId (some o) } p uid r o
where
  -- Step 2: get-or-create the tagihan, then consult the provider.
  createTransactionTagihan (s : Store) (p : Provider) (uid : String)
      (r : CreateTxRequest) (o : OrderDoc) :
      Store × Provider × CreateTxResult :=
    match s.tagihan r.orderId with
    | some tg => createTransactionSnap s p uid r o tg
    | none =>
      let tg : TagihanDoc :=
        { orderId := r.orderId, bookingId := r.bookingId,
          amount := r.amount, status := "pending", userId := uid,
          updatedAt := s.now }
      createTransactionSnap
        { s with tagihan := upd s.tagihan r.orderId (some tg) } p uid r o tg
  -- Step 3: provider lookup, then create or reuse the snap data.
  createTransactionSnap (s : Store) (p : Provider) (uid : String)
      (r : CreateTxRequest) (o : OrderDoc) (tg : TagihanDoc) :
      Store × Provider × CreateTxResult :=
    let p1 := { p with statusCalls := p.statusCalls + 1 }
    match p.txns r.orderId with
    | none =>
      match providerCreate p1 r.orderId with
      | (p2, none) =>
        (s, p2, .err 500 "Failed to create payment transaction")
      | (p2, some (tok, ru)) => finishCreateTx s p2 uid r o tg tok ru
    | some e => finishCreateTx s p1 uid r o tg e.snap_token e.redirect_url

/-- Request body of `POST /create-order` (all five fields required). -/
structure CreateOrderRequest where
  bookingId : String
  orderId : String
  amount : Nat
  customerDetails : String
  paymentType : String
  deriving Repr, DecidableEq

/-- `POST /create-order`: get-or-create the order (403 when owned by
another user), get-or-create the tagihan; when no transaction document
exists, create the provider transaction first — on failure delete the
order and tagihan (compensating delete) and answer 500 — and only then
write the local transaction (without a `payment_url` field); an existing
transaction is reused after an ownership check. -/
def createOrderHandler (s : Store) (p : Provider) (uid : String)
    (r : CreateOrderRequest) : Store × Provider × CreateTxResult :=
  match s.orders r.orderId with
  | some o =>
    if o.userId = uid then
      createOrderTagihan s p uid r o
    else
      (s, p, .err 403 "Access denied")
  | none =>
    let o : OrderDoc :=
      { bookingId := r.bookingId, orderId := r.orderId,
        amount := r.amount, customerDetails := some r.customerDetails,
        paymentType := some r.paymentType, userId := uid, status := "pending",
        updatedAt := s.now }
    createOrderTagihan
      { s with orders := upd s.orders r.orderId (some o) } p uid r o
where
  -- Get-or-create the tagihan, then handle the transaction.
  createOrderTagihan (s : Store) (p : Provider) (uid : String)
      (r : CreateOrderRequest) (o : OrderDoc) :
      Store × Provider × CreateTxResult :=
    match s.tagihan r.orderId with
    | some tg => createOrderTxn s p uid r o tg
    | none =>
      let tg : TagihanDoc :=
        { bookingId := r.bookingId, orderId := r.orderId,
          amount := r.amount, status := "pending", userId := uid,
          updatedAt := s.now }
      createOrderTxn
        { s with tagihan := upd s.tagihan r.orderId (some tg) } p uid r o tg
  -- Provider create with compensating delete, or reuse.
  createOrderTxn (s : Store) (p : Provider) (uid : String)
      (r : CreateOrderRequest) (o : OrderDoc) (tg : TagihanDoc) :
      Store × Provider × CreateTxResult :=
    match s.transactions r.orderId with
    | none =>
      match providerCreate p r.orderId with
      | (p2, none) =>
        ({ s with orders := upd s.orders r.orderId none,
                  tagihan := upd s.tagihan r.orderId none }, p2,
          .err 500 "Failed to process payment. Please try again.")
      | (p2, some (tok, ru)) =>
        let t : TransactionDoc :=
          { bookingId := some r.bookingId,
            orderId := r.orderId, amount := r.amount, userId := some uid,
            status := "pending", payment_type := some r.paymentType,
            snap_token := some tok, redirect_url := some ru,
            updatedAt := s.now }
        ({ s with transactions := upd s.transactions r.orderId (some t),
                  now := s.now + 1 }, p2,
          .ok { order := o, tagihan := tg, txn := t })
    | some t0 =>
      if t0.userId = some uid then
        (s, p, .ok { order := o, tagihan := tg, txn := t0 })
      else
        (s, p, .err 403 "Access denied")

inductive PaymentUrlResult where
  | ok (orderId : String) (payment_url : String) (token : Option String)
  | err (code : Nat) (msg : String)
  deriving Repr, DecidableEq

/-- `GET /payment-url/:orderId`: when the transaction has a (truthy)
stored payment URL, return it with the stored snap token; otherwise look
up the order, create a brand-new provider transaction and overwrite the
transaction's `snap_token`/`payment_url` with the new values. -/
def paymentUrlHandler (s : Store) (p : Provider) (orderId : String) :
    Store × Provider × PaymentUrlResult :=
  match s.transactions orderId with
  | none => (s, p, .err 404 "Transaction not found")
  | some txn =>
    match txn.payment_url with
    | some u =>
      if u ≠ "" then (s, p, .ok orderId u txn.snap_token)
      else paymentUrlCreate s p orderId txn
    | none => paymentUrlCreate s p orderId txn
where
  -- No stored payment URL: create a new provider transaction.
  paymentUrlCreate (s : Store) (p : Provider) (orderId : String)
      (txn : TransactionDoc) : Store × Provider × PaymentUrlResult :=
    match s.orders orderId with
    | none => (s, p, .err 404 "Order not found")
    | some _o =>
      match providerCreate p orderId with
      | (p2, none) => (s, p2, .err 500 "Failed to get payment URL")
      | (p2, some (tok, ru)) =>
        let t :=
          { txn with
            snap_token := some tok, payment_url := some ru,
            updatedAt := s.now }
        ({ s with transactions := upd s.transactions orderId (some t),
                  now := s.now + 1 }, p2, .ok orderId ru (some tok))

def validStatuses : List String :=
  ["pending", "confirmed", "cancelled", "completed"]

def validPaymentStatuses : List String := ["unpaid", "Berhasil", "refunded"]

inductive BookingUpdateResult where
  | ok (b : BookingDoc)
  | err (code : Nat) (msg : String)
  deriving Repr, DecidableEq

/-- `PATCH /bookings/:id/status` (routes/booking.js): 404 when the
booking is missing, 403 when not owned by the caller; a truthy `status`
outside the allowed set answers 400 "Invalid status", then a truthy
`paymentStatus` outside the allowed set answers 400 "Invalid payment
status"; otherwise exactly the truthy-supplied fields plus `updatedAt`
are written and the re-fetched booking is returned. -/
def updateBookingStatusHandler (s : Store) (uid bookingId : String)
    (status paymentStatus : Option String) : Store × BookingUpdateResult :=
  match s.bookings bookingId with
  | none => (s, .err 404 "Booking not found")
  | some bk =>
    if bk.pasienId ≠ uid then (s, .err 403 "Access denied")
    else if truthy status && !(validStatuses.contains (status.getD "")) then
      (s, .err 400 "Invalid status")
    else if truthy paymentStatus &&
        !(validPaymentStatuses.contains (paymentStatus.getD "")) then
      (s, .err 400 "Invalid payment status")
    else
      let bk2 :=
        { bk with
          status := if truthy status then status.getD bk.status else bk.status,
          paymentStatus := if truthy paymentStatus then
            paymentStatus.getD bk.paymentStatus else bk.paymentStatus,
          updatedAt := s.now }
      ({ s with bookings := upd s.bookings bookingId (some bk2),
                now := s.now + 1 }, .ok bk2)

/-- Run a list of provider notifications through the webhook handler. -/
def runNotifications (s : Store) (orderId : String) : List String → Store
  | [] => s
  | ts :: rest => runNotifications (notificationHandler s orderId ts).1 orderId rest

/-! ## Concrete fixtures -/

/-- An empty document store. -/
def emptyStore : Store :=
  { transactions := fun _ => none, orders := fun _ => none,
    tagihan := fun _ => none, bookings := fun _ => none, now := 0 }

/-- A fresh provider holding no transactions. -/
def p0 : Provider :=
  { txns := fun _ => none, nextToken := 0, createCalls := 0,
    statusCalls := 0, createFails := false }

/-- A provider whose create call fails. -/
def pFail : Provider := { p0 with createFails := true }

/-- Sample transaction document for order `ORD-2`, as the engine stores
it after a pending reconciliation. -/
def txn0 : TransactionDoc :=
  { orderId := "ORD-2", bookingId := some "BOOK-1", amount := 50000,
    customer_details := some "cust", userId := some "user-1",
    status := "pending", paymentStatus := some "unpaid",
    tagihanStatus := some "unpaid", snap_token := some "tok-0",
    redirect_url := some "redir-0",
    payment_url := some (paymentUrlOf "tok-0"), midtrans_created := true,
    updatedAt := 0 }

def ord0 : OrderDoc :=
  { bookingId := "BOOK-1", orderId := "ORD-2", amount := 50000,
    userId := "user-1", status := "pending", updatedAt := 0 }

def tg0 : TagihanDoc :=
  { orderId := "ORD-2", bookingId := "BOOK-1", amount := 50000,
    status := "pending", userId := "user-1", updatedAt := 0 }

def bk0 : BookingDoc :=
  { bookingId := "BOOK-1", doctorId := "doc-1", pasienId := "user-1",
    appointmentDate := "2025-01-01", appointmentTime := "09:00",
    serviceType := "consult", status := "pending", paymentStatus := "unpaid",
    updatedAt := 0 }

/-- A store holding all four documents for order `ORD-2`. -/
def store0 : Store :=
  { transactions := upd (fun _ => none) "ORD-2" (some txn0),
    orders := upd (fun _ => none) "ORD-2" (some ord0),
    tagihan := upd (fun _ => none) "ORD-2" (some tg0),
    bookings := upd (fun _ => none) "BOOK-1" (some bk0),
    now := 1 }

/-- `store0` with no transaction document. -/
def storeNoTxn : Store := { store0 with transactions := fun _ => none }

/-- `store0` with no booking document. -/
def storeNoBooking : Store := { store0 with bookings := fun _ => none }

/-- `store0` with no order document. -/
def storeNoOrder : Store := { store0 with orders := fun _ => none }

/-- `store0` with a token-less transaction document. -/
def storeNoTok : Store :=
  { store0 with
    transactions := upd (fun _ => none) "ORD-2"
      (some { txn0 with snap_token := none }) }

/-- `store0` with the terminal (cancelled/failed) state stored on all
four documents, as left by an `expire` reconciliation. -/
def storeTerminal : Store :=
  { transactions := upd (fun _ => none) "ORD-2"
      (some { txn0 with status := "cancelled", paymentStatus := some "failed",
                        tagihanStatus := some "failed" }),
    orders := upd (fun _ => none) "ORD-2"
      (some { ord0 with status := "cancelled", paymentStatus := some "failed" }),
    tagihan := upd (fun _ => none) "ORD-2" (some { tg0 with status := "failed" }),
    bookings := upd (fun _ => none) "BOOK-1"
      (some { bk0 with status := "cancelled", paymentStatus := "failed",
                       tagihanStatus := some "failed" }),
    now := 2 }

/-- A provider that holds `ORD-2` with live status `settlement`. -/
def pSettle : Provider :=
  { p0 with
    txns := upd (fun _ => none) "ORD-2"
      (some ⟨"tok-0", "redir-0", "settlement"⟩) }

/-- A provider that holds `ORD-2` with live status `pending` (a stale
read after the order already expired locally). -/
def pPending : Provider :=
  { p0 with
    txns := upd (fun _ => none) "ORD-2"
      (some ⟨"tok-0", "redir-0", "pending"⟩) }

/-- Sample create-transaction request. -/
def ctReq : CreateTxRequest :=
  { bookingId := "BOOK-1", orderId := "ORD-6", amount := 50000,
    customer_details := "cust" }

/-- Sample create-order request. -/
def coReq : CreateOrderRequest :=
  { bookingId := "BOOK-1", orderId := "ORD-5", amount := 50000,
    customerDetails := "cust", paymentType := "gopay" }

/-- Create-transaction request for the existing order `ORD-2`. -/
def ctReq2 : CreateTxRequest :=
  { bookingId := "BOOK-1", orderId := "ORD-2", amount := 50000,
    customer_details := "cust" }

/-- Create-order request for the existing order `ORD-2`. -/
def coReq2 : CreateOrderRequest :=
  { bookingId := "BOOK-1", orderId := "ORD-2", amount := 50000,
    customerDetails := "cust", paymentType := "gopay" }

/-! ## Helper lemmas -/

/-- The provider statuses with a mapping-table row. -/
def recognizedStatuses : List String :=
  ["capture", "settlement", "pending", "cancel", "deny", "expire"]

@[simp] theorem truthy_none : truthy none = false := rfl

theorem truthy_some {v : String} (h : v ≠ "") : truthy (some v) = true := by
  simp [truthy, h]

theorem mapStatus_pending (prior : StatusTriple) :
    mapStatus prior "pending" =
      ⟨"pending", some "unpaid", some "unpaid"⟩ := rfl

theorem mapStatus_settlement (prior : StatusTriple) :
    mapStatus prior "settlement" =
      ⟨"confirmed", some "Berhasil", some "Berhasil"⟩ := rfl

theorem mapStatus_expire (prior : StatusTriple) :
    mapStatus prior "expire" =
      ⟨"cancelled", some "failed", some "failed"⟩ := rfl

/-- One successful webhook reconciliation, spelled out: when all four
documents exist and the mapped payment/billing components are present,
the handler answers `ok` and commits the batch. -/
theorem notification_step (s : Store) (oid ts pay tgst : String)
    (txn : TransactionDoc) (ord : OrderDoc) (tg : TagihanDoc) (bk : BookingDoc)
    (h1 : s.transactions oid = some txn) (h2 : s.orders oid = some ord)
    (h3 : s.tagihan oid = some tg) (h4 : s.bookings ord.bookingId = some bk)
    (hp : (mapStatus ⟨txn.status, txn.paymentStatus, txn.tagihanStatus⟩
      ts).paymentStatus = some pay)
    (ht : (mapStatus ⟨txn.status, txn.paymentStatus, txn.tagihanStatus⟩
      ts).tagihanStatus = some tgst) :
    notificationHandler s oid ts =
      ({ s with
         transactions := upd s.transactions oid (some { txn with
           paymentStatus := some pay,
           status := (mapStatus ⟨txn.status, txn.paymentStatus,
             txn.tagihanStatus⟩ ts).status,
           tagihanStatus := some tgst, midtrans_status := some ts,
           updatedAt := s.now }),
         orders := upd s.orders oid (some { ord with
           paymentStatus := some pay,
           status := (mapStatus ⟨txn.status, txn.paymentStatus,
             txn.tagihanStatus⟩ ts).status,
           updatedAt := s.now }),
         tagihan := upd s.tagihan oid (some { tg with
           status := tgst, updatedAt := s.now }),
         bookings := upd s.bookings ord.bookingId (some { bk with
           paymentStatus := pay,
           status := (mapStatus ⟨txn.status, txn.paymentStatus,
             txn.tagihanStatus⟩ ts).status,
           tagihanStatus := some tgst, updatedAt := s.now }),
         now := s.now + 1 }, .ok) := by
  simp only [notificationHandler, h1, h2, applyBatch, h3, h4, hp, ht]

/-- One successful poll reconciliation, spelled out: when the
transaction carries a non-empty snap token, the provider holds the
transaction, all four documents exist and the mapped components are
present, the poll handler commits the batch, counts one provider status
call, and answers with the mapped view plus fresh post-commit fetches. -/
theorem checkStatus_commit_step (s : Store) (p : Provider)
    (oid tok pay tgst : String) (ptxn : ProviderTxn)
    (txn : TransactionDoc) (ord : OrderDoc) (tg : TagihanDoc)
    (bk : BookingDoc)
    (h1 : s.transactions oid = some txn) (h2 : s.orders oid = some ord)
    (h3 : s.tagihan oid = some tg) (h4 : s.bookings ord.bookingId = some bk)
    (htok : txn.snap_token = some tok) (htokne : tok ≠ "")
    (hp : p.txns oid = some ptxn)
    (hpay : (mapStatus ⟨txn.status, txn.paymentStatus, txn.tagihanStatus⟩
      ptxn.transaction_status).paymentStatus = some pay)
    (htg : (mapStatus ⟨txn.status, txn.paymentStatus, txn.tagihanStatus⟩
      ptxn.transaction_status).tagihanStatus = some tgst) :
    checkStatusHandler s p oid =
      ({ s with
         transactions := upd s.transactions oid (some { txn with
           paymentStatus := some pay,
           status := (mapStatus ⟨txn.status, txn.paymentStatus,
             txn.tagihanStatus⟩ ptxn.transaction_status).status,
           tagihanStatus := some tgst,
           midtrans_status := some ptxn.transaction_status,
           updatedAt := s.now }),
         orders := upd s.orders oid (some { ord with
           paymentStatus := some pay,
           status := (mapStatus ⟨txn.status, txn.paymentStatus,
             txn.tagihanStatus⟩ ptxn.transaction_status).status,
           updatedAt := s.now }),
         tagihan := upd s.tagihan oid (some { tg with
           status := tgst, updatedAt := s.now }),
         bookings := upd s.bookings ord.bookingId (some { bk with
           paymentStatus := pay,
           status := (mapStatus ⟨txn.status, txn.paymentStatus,
             txn.tagihanStatus⟩ ptxn.transaction_status).status,
           tagihanStatus := some tgst, updatedAt := s.now }),
         now := s.now + 1 },
       { p with statusCalls := p.statusCalls + 1 },
       .ok ⟨oid,
         (mapStatus ⟨txn.status, txn.paymentStatus, txn.tagihanStatus⟩
           ptxn.transaction_status).status,
         some pay, some tgst, false,
         some { ord with
           paymentStatus := some pay,
           status := (mapStatus ⟨txn.status, txn.paymentStatus,
             txn.tagihanStatus⟩ ptxn.transaction_status).status,
           updatedAt := s.now },
         some { tg with status := tgst, updatedAt := s.now },
         some { bk with
           paymentStatus := pay,
           status := (mapStatus ⟨txn.status, txn.paymentStatus,
             txn.tagihanStatus⟩ ptxn.transaction_status).status,
           tagihanStatus := some tgst, updatedAt := s.now }⟩) := by
  simp only [checkStatusHandler, h1, h2, htok, truthy, hp, applyBatch, h3, h4,
    hpay, htg, finishCheck, upd_same, ne_eq, htokne, not_false_eq_true]
  simp

/-! ## Claim C3 — the status-mapping table -/

/-- The mapping table as the amended claim states it: capture/settlement
give (confirmed, Berhasil, Berhasil) — `Berhasil` being the code's
success literal — pending gives (pending, unpaid, unpaid),
cancel/deny/expire give (cancelled, failed, failed), and any other
provider status keeps the prior stored values. -/
def mapTable (prior : StatusTriple) (ts : String) : StatusTriple :=
  if ts ∈ ["capture", "settlement"] then
    ⟨"confirmed", some "Berhasil", some "Berhasil"⟩
  else if ts = "pending" then
    ⟨"pending", some "unpaid", some "unpaid"⟩
  else if ts ∈ ["cancel", "deny", "expire"] then
    ⟨"cancelled", some "failed", some "failed"⟩
  else prior

/-- Claim C3 (amended): the status mapping used by both ingestion paths
realises exactly the table with `Berhasil` (not the literal `success`)
as the stored success value: it agrees with `mapTable`, depends only on
the provider status whenever that status is recognized, and leaves the
prior stored triple untouched on any unrecognized status. -/
theorem c3_mapping_table (prior prior2 : StatusTriple) (ts : String) :
    mapStatus prior ts = mapTable prior ts ∧
    (ts ∈ recognizedStatuses → mapStatus prior ts = mapStatus prior2 ts) ∧
    (ts ∉ recognizedStatuses → mapStatus prior ts = prior) := by
  refine ⟨?_, ?_, ?_⟩
  · simp only [mapStatus, mapTable, List.mem_cons, List.not_mem_nil, or_false]
  · intro h
    simp only [recognizedStatuses, List.mem_cons, List.not_mem_nil,
      or_false] at h
    rcases h with rfl | rfl | rfl | rfl | rfl | rfl <;> rfl
  · intro h
    simp only [recognizedStatuses, List.mem_cons, List.not_mem_nil,
      or_false, not_or] at h
    obtain ⟨n1, n2, n3, n4, n5, n6⟩ := h
    simp [mapStatus, n1, n2, n3, n4, n5, n6]

/-- Witness for C3 at concrete inputs: the table row at `settlement`,
prior-independence at `settlement`, and the unchanged-prior fallback at
the unrecognized status `refund`. -/
theorem c3_mapping_table_witness :
    mapStatus ⟨"x", none, none⟩ "settlement" =
      mapTable ⟨"x", none, none⟩ "settlement" ∧
    mapStatus ⟨"x", none, none⟩ "settlement" =
      mapStatus ⟨"y", some "a", some "b"⟩ "settlement" ∧
    mapStatus ⟨"x", none, none⟩ "refund" = ⟨"x", none, none⟩ :=
  ⟨(c3_mapping_table ⟨"x", none, none⟩ ⟨"y", some "a", some "b"⟩
      "settlement").1,
   (c3_mapping_table ⟨"x", none, none⟩ ⟨"y", some "a", some "b"⟩
      "settlement").2.1 (by decide),
   (c3_mapping_table ⟨"x", none, none⟩ ⟨"x", none, none⟩ "refund").2.2
     (by decide)⟩

/-- Counterexample to C3 as stated: at `settlement` the code stores the
string `Berhasil` for paymentStatus and billingStatus, not the claimed
string `success`. -/
theorem c3_counterexample_berhasil :
    (mapStatus ⟨"pending", some "unpaid", some "unpaid"⟩
      "settlement").paymentStatus = some "Berhasil" ∧
    (mapStatus ⟨"pending", some "unpaid", some "unpaid"⟩
      "settlement").paymentStatus ≠ some "success" ∧
    (mapStatus ⟨"pending", some "unpaid", some "unpaid"⟩
      "settlement").tagihanStatus ≠ some "success" := by
  decide

/-! ## Claim C2 — batch consistency across the four records -/

/-- Claim C2 (amended): after a reconciliation (webhook or poll)
completes successfully on a recognized provider status, one computed
triple is written atomically: Transaction and Booking carry the
identical full {status, paymentStatus, billingStatus} triple, Order
carries the same status and paymentStatus but its billing component is
never written (it keeps its prior value), and the Billing Statement's
single `status` field carries the billing component (its
`paymentStatus` field is never written). -/
theorem c2_reconcile_consistency (s : Store) (p : Provider)
    (oid ts tok : String) (ptxn : ProviderTxn) (txn : TransactionDoc)
    (ord : OrderDoc) (tg : TagihanDoc) (bk : BookingDoc)
    (hts : ts ∈ recognizedStatuses)
    (h1 : s.transactions oid = some txn) (h2 : s.orders oid = some ord)
    (h3 : s.tagihan oid = some tg) (h4 : s.bookings ord.bookingId = some bk)
    (htok : txn.snap_token = some tok) (htokne : tok ≠ "")
    (hp : p.txns oid = some ptxn) (hpts : ptxn.transaction_status = ts) :
    ∃ st pay tgst,
      mapStatus ⟨txn.status, txn.paymentStatus, txn.tagihanStatus⟩ ts =
        ⟨st, some pay, some tgst⟩ ∧
      (notificationHandler s oid ts).2 = .ok ∧
      (notificationHandler s oid ts).1.transactions oid =
        some { txn with
               paymentStatus := some pay, status := st,
               tagihanStatus := some tgst, midtrans_status := some ts,
               updatedAt := s.now } ∧
      (notificationHandler s oid ts).1.orders oid =
        some { ord with
               paymentStatus := some pay, status := st,
               updatedAt := s.now } ∧
      (notificationHandler s oid ts).1.tagihan oid =
        some { tg with status := tgst, updatedAt := s.now } ∧
      (notificationHandler s oid ts).1.bookings ord.bookingId =
        some { bk with
               paymentStatus := pay, status := st,
               tagihanStatus := some tgst, updatedAt := s.now } ∧
      ((notificationHandler s oid ts).1.orders oid).map
          OrderDoc.tagihanStatus = some ord.tagihanStatus ∧
      ((notificationHandler s oid ts).1.tagihan oid).map
          TagihanDoc.paymentStatus = some tg.paymentStatus ∧
      (checkStatusHandler s p oid).1.transactions oid =
        some { txn with
               paymentStatus := some pay, status := st,
               tagihanStatus := some tgst, midtrans_status := some ts,
               updatedAt := s.now } ∧
      (checkStatusHandler s p oid).1.orders oid =
        some { ord with
               paymentStatus := some pay, status := st,
               updatedAt := s.now } ∧
      (checkStatusHandler s p oid).1.tagihan oid =
        some { tg with status := tgst, updatedAt := s.now } ∧
      (checkStatusHandler s p oid).1.bookings ord.bookingId =
        some { bk with
               paymentStatus := pay, status := st,
               tagihanStatus := some tgst, updatedAt := s.now } := by
  obtain ⟨st, pay, tgst, hmap⟩ : ∃ st pay tgst,
      mapStatus ⟨txn.status, txn.paymentStatus, txn.tagihanStatus⟩ ts =
        ⟨st, some pay, some tgst⟩ := by
    simp only [recognizedStatuses, List.mem_cons, List.not_mem_nil,
      or_false] at hts
    rcases hts with rfl | rfl | rfl | rfl | rfl | rfl <;> exact ⟨_, _, _, rfl⟩
  have e1 := notification_step s oid ts pay tgst txn ord tg bk h1 h2 h3 h4
    (by rw [hmap]) (by rw [hmap])
  have e2 := checkStatus_commit_step s p oid tok pay tgst ptxn txn ord tg bk
    h1 h2 h3 h4 htok htokne hp (by rw [hpts, hmap]) (by rw [hpts, hmap])
  refine ⟨st, pay, tgst, hmap, ?_⟩
  rw [e1, e2]
  simp [hmap, hpts, upd_same]

/-- Witness for C2 on the concrete pending `ORD-2` store with provider
status `settlement` on both paths. -/
theorem c2_reconcile_consistency_witness :
    ∃ st pay tgst,
      mapStatus ⟨txn0.status, txn0.paymentStatus, txn0.tagihanStatus⟩
        "settlement" = ⟨st, some pay, some tgst⟩ ∧
      (notificationHandler store0 "ORD-2" "settlement").2 = .ok ∧
      (notificationHandler store0 "ORD-2" "settlement").1.transactions
        "ORD-2" =
        some { txn0 with
               paymentStatus := some pay, status := st,
               tagihanStatus := some tgst,
               midtrans_status := some "settlement",
               updatedAt := store0.now } ∧
      (notificationHandler store0 "ORD-2" "settlement").1.orders "ORD-2" =
        some { ord0 with
               paymentStatus := some pay, status := st,
               updatedAt := store0.now } ∧
      (notificationHandler store0 "ORD-2" "settlement").1.tagihan "ORD-2" =
        some { tg0 with status := tgst, updatedAt := store0.now } ∧
      (notificationHandler store0 "ORD-2" "settlement").1.bookings
        ord0.bookingId =
        some { bk0 with
               paymentStatus := pay, status := st,
               tagihanStatus := some tgst, updatedAt := store0.now } ∧
      ((notificationHandler store0 "ORD-2" "settlement").1.orders
          "ORD-2").map OrderDoc.tagihanStatus = some ord0.tagihanStatus ∧
      ((notificationHandler store0 "ORD-2" "settlement").1.tagihan
          "ORD-2").map TagihanDoc.paymentStatus = some tg0.paymentStatus ∧
      (checkStatusHandler store0 pSettle "ORD-2").1.transactions "ORD-2" =
        some { txn0 with
               paymentStatus := some pay, status := st,
               tagihanStatus := some tgst,
               midtrans_status := some "settlement",
               updatedAt := store0.now } ∧
      (checkStatusHandler store0 pSettle "ORD-2").1.orders "ORD-2" =
        some { ord0 with
               paymentStatus := some pay, status := st,
               updatedAt := store0.now } ∧
      (checkStatusHandler store0 pSettle "ORD-2").1.tagihan "ORD-2" =
        some { tg0 with status := tgst, updatedAt := store0.now } ∧
      (checkStatusHandler store0 pSettle "ORD-2").1.bookings
        ord0.bookingId =
        some { bk0 with
               paymentStatus := pay, status := st,
               tagihanStatus := some tgst, updatedAt := store0.now } :=
  c2_reconcile_consistency store0 pSettle "ORD-2" "settlement" "tok-0"
    ⟨"tok-0", "redir-0", "settlement"⟩ txn0 ord0 tg0 bk0
    (by decide) rfl rfl rfl rfl rfl (by decide) rfl rfl

/-- Counterexample to C2 as stated: after a successful `settlement`
webhook reconciliation on `ORD-2`, the four records do not all carry the
identical {status, paymentStatus, billingStatus} triple — the
transaction's billing component is `Berhasil` while the order has no
billing component at all, and the billing statement has no
paymentStatus field. -/
theorem c2_counterexample_partial_skew :
    (notificationHandler store0 "ORD-2" "settlement").2 = .ok ∧
    ((notificationHandler store0 "ORD-2" "settlement").1.transactions
        "ORD-2").map TransactionDoc.tagihanStatus =
      some (some "Berhasil") ∧
    ((notificationHandler store0 "ORD-2" "settlement").1.orders
        "ORD-2").map OrderDoc.tagihanStatus = some none ∧
    ((notificationHandler store0 "ORD-2" "settlement").1.tagihan
        "ORD-2").map TagihanDoc.paymentStatus = some none := by
  decide


/-! ## Claim C7 — behaviour when a required record is absent -/

/-- Claim C7 (amended): reconciliation never mutates any record when a
required document is absent, but the error reporting is only partially
distinct. The poll path reports "Transaction not found" and "Order not
found" distinctly; the webhook path reports "Order not found" distinctly
but answers the generic "Failed to process notification" for a missing
transaction; and a missing booking makes the atomic batch fail, which
the webhook path reports as the generic error and the poll path swallows
into a success response with the last-known state — never a distinct
booking-not-found report. -/
theorem c7_not_found_handling (s : Store) (p : Provider) (oid ts : String) :
    (s.transactions oid = none →
      notificationHandler s oid ts =
        (s, .err 500 "Failed to process notification")) ∧
    (∀ txn, s.transactions oid = some txn → s.orders oid = none →
      notificationHandler s oid ts = (s, .err 404 "Order not found")) ∧
    (∀ txn ord, s.transactions oid = some txn → s.orders oid = some ord →
      s.bookings ord.bookingId = none →
      notificationHandler s oid ts =
        (s, .err 500 "Failed to process notification")) ∧
    (s.transactions oid = none →
      checkStatusHandler s p oid = (s, p, .err 404 "Transaction not found")) ∧
    (∀ txn, s.transactions oid = some txn → s.orders oid = none →
      checkStatusHandler s p oid = (s, p, .err 404 "Order not found")) ∧
    (∀ txn ord, s.transactions oid = some txn → s.orders oid = some ord →
      s.bookings ord.bookingId = none →
      (checkStatusHandler s p oid).1 = s ∧
      ((checkStatusHandler s p oid).2.2).isOk = true) := by
  refine ⟨?_, ?_, ?_, ?_, ?_, ?_⟩
  · intro h
    simp [notificationHandler, h]
  · intro txn hx ho
    simp [notificationHandler, hx, ho]
  · intro txn ord hx ho hbk
    rcases htg : s.tagihan oid with _ | tg <;>
      simp [notificationHandler, hx, ho, applyBatch, htg, hbk]
  · intro h
    simp [checkStatusHandler, h]
  · intro txn hx ho
    simp [checkStatusHandler, hx, ho]
  · intro txn ord hx ho hbk
    cases htr : truthy txn.snap_token
    · simp [checkStatusHandler, hx, ho, htr, finishCheck,
        CheckStatusResult.isOk]
    · rcases hpt : p.txns oid with _ | ptxn
      · simp [checkStatusHandler, hx, ho, htr, hpt, finishCheck,
          CheckStatusResult.isOk]
      · rcases htg : s.tagihan oid with _ | tg <;>
          simp [checkStatusHandler, hx, ho, htr, hpt, applyBatch, htg, hbk,
            finishCheck, CheckStatusResult.isOk]

/-- Witness for C7: each missing-record case exercised on concrete
stores for `ORD-2`. -/
theorem c7_not_found_handling_witness :
    notificationHandler storeNoTxn "ORD-2" "settlement" =
      (storeNoTxn, .err 500 "Failed to process notification") ∧
    notificationHandler storeNoOrder "ORD-2" "settlement" =
      (storeNoOrder, .err 404 "Order not found") ∧
    notificationHandler storeNoBooking "ORD-2" "settlement" =
      (storeNoBooking, .err 500 "Failed to process notification") ∧
    checkStatusHandler storeNoTxn p0 "ORD-2" =
      (storeNoTxn, p0, .err 404 "Transaction not found") ∧
    checkStatusHandler storeNoOrder p0 "ORD-2" =
      (storeNoOrder, p0, .err 404 "Order not found") ∧
    (checkStatusHandler storeNoBooking pSettle "ORD-2").1 = storeNoBooking ∧
    ((checkStatusHandler storeNoBooking pSettle "ORD-2").2.2).isOk = true :=
  ⟨(c7_not_found_handling storeNoTxn p0 "ORD-2" "settlement").1 rfl,
   (c7_not_found_handling storeNoOrder p0 "ORD-2" "settlement").2.1
     txn0 rfl rfl,
   (c7_not_found_handling storeNoBooking p0 "ORD-2" "settlement").2.2.1
     txn0 ord0 rfl rfl rfl,
   (c7_not_found_handling storeNoTxn p0 "ORD-2" "settlement").2.2.2.1 rfl,
   (c7_not_found_handling storeNoOrder p0 "ORD-2" "settlement").2.2.2.2.1
     txn0 rfl rfl,
   (c7_not_found_handling storeNoBooking pSettle "ORD-2"
     "settlement").2.2.2.2.2 txn0 ord0 rfl rfl rfl⟩

/-- Counterexample to C7 as stated: a webhook reconcile on a store with
no transaction document answers the generic "Failed to process
notification", not a distinct transaction-not-found report; and a poll
reconcile with a missing booking answers success, not an error. -/
theorem c7_counterexample_no_distinct_report :
    notificationHandler storeNoTxn "ORD-2" "pending" =
      (storeNoTxn, .err 500 "Failed to process notification") ∧
    ("Failed to process notification" : String) ≠ "Transaction not found" ∧
    ((checkStatusHandler storeNoBooking pSettle "ORD-2").2.2).isOk = true :=
  ⟨rfl, by decide, by decide⟩


/-! ## Claim C8 — what the poll response is built from -/

/-- Claim C8 (amended): after a poll-path reconciliation, the order,
billing statement and booking views in the response are fetched fresh
from the store after the commit, but the transaction view is built from
the handler's locally computed status variables, not fetched fresh: when
the commit succeeds the local values coincide with the stored ones, and
when the batch fails (here: missing booking) the response still carries
the locally mapped triple while the stored transaction is unchanged. -/
theorem c8_poll_response_views (s : Store) (p : Provider)
    (oid tok : String) (ptxn : ProviderTxn) (txn : TransactionDoc)
    (ord : OrderDoc)
    (h1 : s.transactions oid = some txn) (h2 : s.orders oid = some ord)
    (htok : txn.snap_token = some tok) (htokne : tok ≠ "")
    (hp : p.txns oid = some ptxn) :
    (∀ (tg : TagihanDoc) (bk : BookingDoc) (pay tgst : String),
      s.tagihan oid = some tg → s.bookings ord.bookingId = some bk →
      (mapStatus ⟨txn.status, txn.paymentStatus, txn.tagihanStatus⟩
        ptxn.transaction_status).paymentStatus = some pay →
      (mapStatus ⟨txn.status, txn.paymentStatus, txn.tagihanStatus⟩
        ptxn.transaction_status).tagihanStatus = some tgst →
      ∃ d, (checkStatusHandler s p oid).2.2 = .ok d ∧
        d.order = (checkStatusHandler s p oid).1.orders oid ∧
        d.tagihan = (checkStatusHandler s p oid).1.tagihan oid ∧
        d.booking = (checkStatusHandler s p oid).1.bookings ord.bookingId ∧
        d.status = (mapStatus ⟨txn.status, txn.paymentStatus,
          txn.tagihanStatus⟩ ptxn.transaction_status).status ∧
        d.paymentStatus = some pay ∧ d.tagihanStatus = some tgst ∧
        d.isLocalStatus = false) ∧
    (s.bookings ord.bookingId = none →
      (checkStatusHandler s p oid).1 = s ∧
      ∃ d, (checkStatusHandler s p oid).2.2 = .ok d ∧
        d.status = (mapStatus ⟨txn.status, txn.paymentStatus,
          txn.tagihanStatus⟩ ptxn.transaction_status).status ∧
        d.isLocalStatus = false ∧
        ((checkStatusHandler s p oid).1.transactions oid).map
          TransactionDoc.status = some txn.status) := by
  constructor
  · intro tg bk pay tgst h3 h4 hpay htg
    have e2 := checkStatus_commit_step s p oid tok pay tgst ptxn txn ord tg bk
      h1 h2 h3 h4 htok htokne hp hpay htg
    rw [e2]
    simp
  · intro hbk
    rcases htg2 : s.tagihan oid with _ | tg <;>
      simp [checkStatusHandler, h1, h2, htok, truthy, htokne, hp, applyBatch,
        htg2, hbk, finishCheck]

/-- Witness for C8: the success-commit case on the full `ORD-2` store
and the failed-commit case on the booking-less store, both with live
provider status `settlement`. -/
theorem c8_poll_response_views_witness :
    (∃ d, (checkStatusHandler store0 pSettle "ORD-2").2.2 = .ok d ∧
      d.order = (checkStatusHandler store0 pSettle "ORD-2").1.orders
        "ORD-2" ∧
      d.tagihan = (checkStatusHandler store0 pSettle "ORD-2").1.tagihan
        "ORD-2" ∧
      d.booking = (checkStatusHandler store0 pSettle "ORD-2").1.bookings
        ord0.bookingId ∧
      d.status = (mapStatus ⟨txn0.status, txn0.paymentStatus,
        txn0.tagihanStatus⟩ "settlement").status ∧
      d.paymentStatus = some "Berhasil" ∧
      d.tagihanStatus = some "Berhasil" ∧
      d.isLocalStatus = false) ∧
    ((checkStatusHandler storeNoBooking pSettle "ORD-2").1 =
        storeNoBooking ∧
      ∃ d, (checkStatusHandler storeNoBooking pSettle "ORD-2").2.2 =
          .ok d ∧
        d.status = (mapStatus ⟨txn0.status, txn0.paymentStatus,
          txn0.tagihanStatus⟩ "settlement").status ∧
        d.isLocalStatus = false ∧
        ((checkStatusHandler storeNoBooking pSettle "ORD-2").1.transactions
          "ORD-2").map TransactionDoc.status = some txn0.status) :=
  ⟨(c8_poll_response_views store0 pSettle "ORD-2" "tok-0"
      ⟨"tok-0", "redir-0", "settlement"⟩ txn0 ord0 rfl rfl rfl (by decide)
      rfl).1 tg0 bk0 "Berhasil" "Berhasil" rfl rfl rfl rfl,
   (c8_poll_response_views storeNoBooking pSettle "ORD-2" "tok-0"
      ⟨"tok-0", "redir-0", "settlement"⟩ txn0 ord0 rfl rfl rfl (by decide)
      rfl).2 rfl⟩

/-- Counterexample to C8 as stated: on the booking-less `ORD-2` store
with live provider status `settlement`, the poll response's transaction
view says `confirmed` while the freshly stored transaction still says
`pending` — the transaction view is the locally computed value, not a
fresh post-commit fetch of the record. -/
theorem c8_counterexample_local_transaction_view :
    ((checkStatusHandler storeNoBooking pSettle "ORD-2").2.2).isOk =
      true ∧
    (match (checkStatusHandler storeNoBooking pSettle "ORD-2").2.2 with
      | .ok d => some d.status
      | .err _ _ => none) = some "confirmed" ∧
    (((checkStatusHandler storeNoBooking pSettle "ORD-2").1.transactions
        "ORD-2").map TransactionDoc.status) = some "pending" := by
  decide


/-! ## Claim C9 — token-less poll makes no provider call -/

/-- Claim C9: a status-check on an order whose transaction carries no
provider snap token makes zero provider calls (the provider value is
returned untouched, call counters included), leaves the store untouched,
and answers with the stored local state of all four records. -/
theorem c9_no_token_no_provider_call (s : Store) (p : Provider)
    (oid : String) (txn : TransactionDoc) (ord : OrderDoc)
    (h1 : s.transactions oid = some txn) (h2 : s.orders oid = some ord)
    (htok : txn.snap_token = none) :
    checkStatusHandler s p oid =
      (s, p, .ok ⟨oid, txn.status, txn.paymentStatus, txn.tagihanStatus,
        true, s.orders oid, s.tagihan oid, s.bookings ord.bookingId⟩) := by
  simp [checkStatusHandler, h1, h2, htok, truthy, finishCheck]

/-- Witness for C9: the token-less `ORD-2` store answers its stored
pending state and leaves store and provider as they were. -/
theorem c9_no_token_no_provider_call_witness :
    checkStatusHandler storeNoTok p0 "ORD-2" =
      (storeNoTok, p0, .ok ⟨"ORD-2", "pending", some "unpaid",
        some "unpaid", true, storeNoTok.orders "ORD-2",
        storeNoTok.tagihan "ORD-2", storeNoTok.bookings "BOOK-1"⟩) :=
  c9_no_token_no_provider_call storeNoTok p0 "ORD-2"
    { txn0 with snap_token := none } ord0 rfl rfl rfl

/-! ## Claim C1 — no monotonicity guard on terminal states -/

/-- Claim C1 (amended): reconciliation applies the status mapping
unconditionally, with no monotonicity guard. The claim's scenario prefix
holds — after provider statuses `pending` then `expire` on order `ORD-2`
the stored state is status=cancelled, paymentStatus=failed — but a later
stale `pending` does not leave it there: on any store whose four records
exist and whose transaction is in a terminal state, a `pending`
reconciliation reverts the stored transaction and order to
pending/unpaid, and on `ORD-2` the full `pending, expire, pending`
sequence ends at pending/unpaid. -/
theorem c1_no_monotonicity_guard (s : Store) (oid : String)
    (txn : TransactionDoc) (ord : OrderDoc) (tg : TagihanDoc)
    (bk : BookingDoc)
    (h1 : s.transactions oid = some txn) (h2 : s.orders oid = some ord)
    (h3 : s.tagihan oid = some tg) (h4 : s.bookings ord.bookingId = some bk)
    (_hterm : txn.status = "confirmed" ∨ txn.status = "cancelled") :
    ((notificationHandler s oid "pending").1.transactions oid).map
        (fun t => (t.status, t.paymentStatus, t.tagihanStatus)) =
      some ("pending", some "unpaid", some "unpaid") ∧
    ((notificationHandler s oid "pending").1.orders oid).map
        (fun o => (o.status, o.paymentStatus)) =
      some ("pending", some "unpaid") ∧
    ((runNotifications store0 "ORD-2" ["pending", "expire"]).transactions
        "ORD-2").map (fun t => (t.status, t.paymentStatus)) =
      some ("cancelled", some "failed") ∧
    ((runNotifications store0 "ORD-2"
        ["pending", "expire", "pending"]).transactions "ORD-2").map
        (fun t => (t.status, t.paymentStatus)) =
      some ("pending", some "unpaid") := by
  have e1 := notification_step s oid "pending" "unpaid" "unpaid" txn ord tg bk
    h1 h2 h3 h4 rfl rfl
  refine ⟨?_, ?_, by decide, by decide⟩
  · rw [e1]
    simp [mapStatus_pending]
  · rw [e1]
    simp [mapStatus_pending]

/-- Witness for C1 on the terminal `ORD-2` store: a stale `pending`
reverts the stored cancelled/failed state to pending/unpaid. -/
theorem c1_no_monotonicity_guard_witness :
    ((notificationHandler storeTerminal "ORD-2" "pending").1.transactions
        "ORD-2").map (fun t => (t.status, t.paymentStatus, t.tagihanStatus)) =
      some ("pending", some "unpaid", some "unpaid") ∧
    ((notificationHandler storeTerminal "ORD-2" "pending").1.orders
        "ORD-2").map (fun o => (o.status, o.paymentStatus)) =
      some ("pending", some "unpaid") ∧
    ((runNotifications store0 "ORD-2" ["pending", "expire"]).transactions
        "ORD-2").map (fun t => (t.status, t.paymentStatus)) =
      some ("cancelled", some "failed") ∧
    ((runNotifications store0 "ORD-2"
        ["pending", "expire", "pending"]).transactions "ORD-2").map
        (fun t => (t.status, t.paymentStatus)) =
      some ("pending", some "unpaid") :=
  c1_no_monotonicity_guard storeTerminal "ORD-2"
    { txn0 with status := "cancelled", paymentStatus := some "failed",
                tagihanStatus := some "failed" }
    { ord0 with status := "cancelled", paymentStatus := some "failed" }
    { tg0 with status := "failed" }
    { bk0 with status := "cancelled", paymentStatus := "failed",
               tagihanStatus := some "failed" }
    rfl rfl rfl rfl (Or.inr rfl)

/-- Counterexample to C1 as stated: on `ORD-2` the provider-status
sequence `pending, expire` stores the terminal cancelled/failed state,
yet a later stale `pending` does not leave it there — it reverts the
stored state to pending/unpaid. -/
theorem c1_counterexample_stale_pending :
    ((runNotifications store0 "ORD-2" ["pending", "expire"]).transactions
        "ORD-2").map (fun t => (t.status, t.paymentStatus)) =
      some ("cancelled", some "failed") ∧
    ((runNotifications store0 "ORD-2"
        ["pending", "expire", "pending"]).transactions "ORD-2").map
        (fun t => (t.status, t.paymentStatus)) ≠
      some ("cancelled", some "failed") ∧
    ((runNotifications store0 "ORD-2"
        ["pending", "expire", "pending"]).transactions "ORD-2").map
        (fun t => t.status) = some "pending" := by
  decide

/-! ## Claim C10 — booking status-update validation -/

/-- Claim C10 (amended): on a booking status-update whose `paymentStatus`
is present, non-empty and outside {unpaid, Berhasil, refunded} — such as
the `failed` value the reconciliation engine itself writes — and whose
`status` is absent/empty or valid, the handler answers 400 "Invalid
payment status" and mutates nothing; an empty-string field is falsy in
JS and is treated as absent, and when both fields are absent/valid
exactly the truthy-supplied fields plus `updatedAt` are written. -/
theorem c10_booking_status_update (s : Store) (uid bid : String)
    (bk : BookingDoc) (status paymentStatus : Option String)
    (h1 : s.bookings bid = some bk) (hown : bk.pasienId = uid)
    (hst : truthy status = false ∨ (status.getD "") ∈ validStatuses) :
    (∀ v, paymentStatus = some v → v ≠ "" →
      v ∉ validPaymentStatuses →
      updateBookingStatusHandler s uid bid status paymentStatus =
        (s, .err 400 "Invalid payment status")) ∧
    ((truthy paymentStatus = false ∨
      (paymentStatus.getD "") ∈ validPaymentStatuses) →
      updateBookingStatusHandler s uid bid status paymentStatus =
        ({ s with
           bookings := upd s.bookings bid (some { bk with
             status := if truthy status then status.getD bk.status
               else bk.status,
             paymentStatus := if truthy paymentStatus then
               paymentStatus.getD bk.paymentStatus else bk.paymentStatus,
             updatedAt := s.now }),
           now := s.now + 1 },
         .ok { bk with
           status := if truthy status then status.getD bk.status
             else bk.status,
           paymentStatus := if truthy paymentStatus then
             paymentStatus.getD bk.paymentStatus else bk.paymentStatus,
           updatedAt := s.now })) := by
  constructor
  · intro v hv hvne hvnot
    rcases hst with hst | hst <;>
      simp [updateBookingStatusHandler, h1, hown, hst, hv,
        truthy_some hvne, hvnot]
  · intro hps
    rcases hst with hst | hst <;> rcases hps with hps | hps <;>
      simp [updateBookingStatusHandler, h1, hown, hst, hps]

/-- Witness for C10: on the sample booking, `paymentStatus := failed`
(status absent) is rejected without mutation, and a valid
`status := confirmed` with `paymentStatus := Berhasil` writes exactly
those fields plus the timestamp. -/
theorem c10_booking_status_update_witness :
    updateBookingStatusHandler store0 "user-1" "BOOK-1" none
        (some "failed") =
      (store0, .err 400 "Invalid payment status") ∧
    updateBookingStatusHandler store0 "user-1" "BOOK-1"
        (some "confirmed") (some "Berhasil") =
      ({ store0 with
         bookings := upd store0.bookings "BOOK-1" (some { bk0 with
           status := if truthy (some "confirmed") then
             (some "confirmed").getD bk0.status else bk0.status,
           paymentStatus := if truthy (some "Berhasil") then
             (some "Berhasil").getD bk0.paymentStatus
             else bk0.paymentStatus,
           updatedAt := store0.now }),
         now := store0.now + 1 },
       .ok { bk0 with
         status := if truthy (some "confirmed") then
           (some "confirmed").getD bk0.status else bk0.status,
         paymentStatus := if truthy (some "Berhasil") then
           (some "Berhasil").getD bk0.paymentStatus else bk0.paymentStatus,
         updatedAt := store0.now }) :=
  ⟨(c10_booking_status_update store0 "user-1" "BOOK-1" bk0 none
      (some "failed") rfl rfl (Or.inl rfl)).1 "failed" rfl (by decide)
      (by decide),
   (c10_booking_status_update store0 "user-1" "BOOK-1" bk0
      (some "confirmed") (some "Berhasil") rfl rfl (Or.inr (by decide))).2
      (Or.inr (by decide))⟩

/-- Counterexample to C10 as stated: the request whose `paymentStatus`
is present but equals the empty string — a value outside
{unpaid, Berhasil, refunded} — is not rejected: JS truthiness treats it
as absent, the handler answers success and writes only `updatedAt`. -/
theorem c10_counterexample_empty_string :
    (updateBookingStatusHandler store0 "user-1" "BOOK-1" none
        (some "")).2 = .ok { bk0 with updatedAt := store0.now } ∧
    validPaymentStatuses.contains "" = false := by
  decide


/-! ## Claim C6 — compensating delete on provider-create failure -/

/-- Claim C6 (amended): the compensating delete holds on the
create-order path — when the provider create fails during a first-time
setup, the optimistically created Order and Billing Statement are
deleted before the error is returned and no transaction document is
written — but the create-transaction path returns its error while
leaving the optimistically created Order and Billing Statement in
place. -/
theorem c6_compensating_delete (s : Store) (p : Provider) (uid : String)
    (hpf : p.createFails = true) :
    (∀ r : CreateOrderRequest, s.orders r.orderId = none →
      s.tagihan r.orderId = none → s.transactions r.orderId = none →
      (createOrderHandler s p uid r).2.2 =
        .err 500 "Failed to process payment. Please try again." ∧
      (createOrderHandler s p uid r).1.orders r.orderId = none ∧
      (createOrderHandler s p uid r).1.tagihan r.orderId = none ∧
      (createOrderHandler s p uid r).1.transactions r.orderId = none) ∧
    (∀ r : CreateTxRequest, s.orders r.orderId = none →
      s.tagihan r.orderId = none → s.transactions r.orderId = none →
      p.txns r.orderId = none →
      (createTransactionHandler s p uid r).2.2 =
        .err 500 "Failed to create payment transaction" ∧
      ((createTransactionHandler s p uid r).1.orders r.orderId).isSome =
        true ∧
      ((createTransactionHandler s p uid r).1.tagihan r.orderId).isSome =
        true) := by
  constructor
  · intro r ho htg htx
    simp [createOrderHandler, createOrderHandler.createOrderTagihan,
      createOrderHandler.createOrderTxn, providerCreate, hpf, ho, htg, htx,
      upd_same]
  · intro r ho htg htx hpt
    simp [createTransactionHandler,
      createTransactionHandler.createTransactionTagihan,
      createTransactionHandler.createTransactionSnap, providerCreate, hpf,
      ho, htg, htx, hpt, upd_same]

/-- Witness for C6: the failing provider on an empty store — the
create-order path deletes the two records, the create-transaction path
keeps them. -/
theorem c6_compensating_delete_witness :
    ((createOrderHandler emptyStore pFail "user-1" coReq).2.2 =
        .err 500 "Failed to process payment. Please try again." ∧
      (createOrderHandler emptyStore pFail "user-1" coReq).1.orders
        coReq.orderId = none ∧
      (createOrderHandler emptyStore pFail "user-1" coReq).1.tagihan
        coReq.orderId = none ∧
      (createOrderHandler emptyStore pFail "user-1" coReq).1.transactions
        coReq.orderId = none) ∧
    ((createTransactionHandler emptyStore pFail "user-1" ctReq).2.2 =
        .err 500 "Failed to create payment transaction" ∧
      ((createTransactionHandler emptyStore pFail "user-1"
          ctReq).1.orders ctReq.orderId).isSome = true ∧
      ((createTransactionHandler emptyStore pFail "user-1"
          ctReq).1.tagihan ctReq.orderId).isSome = true) :=
  ⟨(c6_compensating_delete emptyStore pFail "user-1" rfl).1 coReq
      rfl rfl rfl,
   (c6_compensating_delete emptyStore pFail "user-1" rfl).2 ctReq
      rfl rfl rfl rfl⟩

/-- Counterexample to C6 as stated: a first-time create-transaction
request on an empty store with a failing provider returns an error, yet
the optimistically created Order and Billing Statement for `ORD-6`
still exist afterwards. -/
theorem c6_counterexample_create_transaction_leaves_records :
    (createTransactionHandler emptyStore pFail "user-1" ctReq).2.2 =
      .err 500 "Failed to create payment transaction" ∧
    ((createTransactionHandler emptyStore pFail "user-1" ctReq).1.orders
        "ORD-6").isSome = true ∧
    ((createTransactionHandler emptyStore pFail "user-1" ctReq).1.tagihan
        "ORD-6").isSome = true := by
  decide


/-! ## Claim C5 — are the provider token and redirect URL write-once? -/

/-- Claim C5 (amended): the snap token and redirect URL are write-once
under create-transaction and create-order — create-transaction, when the
provider holds the matching transaction, rewrites the same token and
redirect values, create-order leaves an existing transaction document
untouched, and the payment-url lookup with a stored payment URL answers
from the store without writing — but a payment-url lookup on a
transaction that lacks a stored payment URL (as create-order leaves it)
issues a fresh provider create and overwrites the snap token with the
new token. -/
theorem c5_write_once_amended (s : Store) (p : Provider) (uid : String) :
    (∀ (r : CreateTxRequest) (txn : TransactionDoc) (o : OrderDoc)
      (e : ProviderTxn) (tok : String),
      s.orders r.orderId = some o → o.userId = uid →
      s.transactions r.orderId = some txn → txn.snap_token = some tok →
      p.txns r.orderId = some e → e.snap_token = tok →
      txn.redirect_url = some e.redirect_url →
      ((createTransactionHandler s p uid r).1.transactions r.orderId).map
        TransactionDoc.snap_token = some (some tok) ∧
      ((createTransactionHandler s p uid r).1.transactions r.orderId).map
        TransactionDoc.redirect_url = some txn.redirect_url) ∧
    (∀ (r : CreateOrderRequest) (txn : TransactionDoc) (o : OrderDoc),
      s.orders r.orderId = some o → o.userId = uid →
      s.transactions r.orderId = some txn → txn.userId = some uid →
      (createOrderHandler s p uid r).1.transactions = s.transactions) ∧
    (∀ (oid u : String) (txn : TransactionDoc),
      s.transactions oid = some txn → txn.payment_url = some u → u ≠ "" →
      paymentUrlHandler s p oid = (s, p, .ok oid u txn.snap_token)) := by
  refine ⟨?_, ?_, ?_⟩
  · intro r txn o e tok ho hou htx htok hp hes heru
    rcases htg : s.tagihan r.orderId with _ | tg <;>
      simp [createTransactionHandler,
        createTransactionHandler.createTransactionTagihan,
        createTransactionHandler.createTransactionSnap, finishCreateTx,
        ho, hou, htg, hp, htx, hes, heru, upd_same]
  · intro r txn o ho hou htx htu
    rcases htg : s.tagihan r.orderId with _ | tg <;>
      simp [createOrderHandler, createOrderHandler.createOrderTagihan,
        createOrderHandler.createOrderTxn, ho, hou, htg, htx, htu]
  · intro oid u txn htx hu hune
    simp [paymentUrlHandler, htx, hu, hune]

/-- Witness for C5: on the `ORD-2` store whose transaction carries
`tok-0`, create-transaction rewrites the same token and redirect URL,
create-order leaves the transaction collection untouched, and the
payment-url lookup answers the stored URL without writing. -/
theorem c5_write_once_amended_witness :
    (((createTransactionHandler store0 pPending "user-1"
        ctReq2).1.transactions "ORD-2").map TransactionDoc.snap_token =
      some (some "tok-0") ∧
    ((createTransactionHandler store0 pPending "user-1"
        ctReq2).1.transactions "ORD-2").map TransactionDoc.redirect_url =
      some txn0.redirect_url) ∧
    (createOrderHandler store0 pPending "user-1" coReq2).1.transactions =
      store0.transactions ∧
    paymentUrlHandler store0 p0 "ORD-2" =
      (store0, p0, .ok "ORD-2" (paymentUrlOf "tok-0") txn0.snap_token) :=
  ⟨(c5_write_once_amended store0 pPending "user-1").1 ctReq2 txn0 ord0
      ⟨"tok-0", "redir-0", "pending"⟩ "tok-0" rfl rfl rfl rfl rfl rfl rfl,
   (c5_write_once_amended store0 pPending "user-1").2.1 coReq2 txn0 ord0
      rfl rfl rfl rfl,
   (c5_write_once_amended store0 p0 "user-1").2.2 "ORD-2"
      (paymentUrlOf "tok-0") txn0 rfl rfl (by decide)⟩

/-- Counterexample to C5 as stated: create-order stores the transaction
for `ORD-5` with snap token `tok-0` and no payment URL; the subsequent
payment-url lookup — one of the operations the claim names — issues a
fresh provider create and overwrites the stored snap token with the
different value `tok-1`. -/
theorem c5_counterexample_payment_url_overwrite :
    ((createOrderHandler emptyStore p0 "user-1" coReq).1.transactions
        "ORD-5").map TransactionDoc.snap_token = some (some "tok-0") ∧
    ((createOrderHandler emptyStore p0 "user-1" coReq).1.transactions
        "ORD-5").map TransactionDoc.payment_url = some none ∧
    ((paymentUrlHandler (createOrderHandler emptyStore p0 "user-1" coReq).1
        (createOrderHandler emptyStore p0 "user-1" coReq).2.1
        "ORD-5").1.transactions "ORD-5").map TransactionDoc.snap_token =
      some (some "tok-1") ∧
    (some "tok-0" : Option String) ≠ some "tok-1" := by
  decide


/-! ## Claim C4 — idempotent transaction creation -/

/-- Invariants of the tagihan-and-snap tail of create-transaction, for
any entry state whose order is owned by the caller: the order still maps
to the caller, a tagihan exists afterwards, and the token/redirect pair
of the response is exactly the provider's held transaction for this
order id (both are `none` exactly when the provider create failed). -/
theorem createTxTagihan_invariants (s : Store) (p : Provider)
    (uid : String) (r : CreateTxRequest) (o : OrderDoc)
    (ho : s.orders r.orderId = some o) (hou : o.userId = uid) :
    ((createTransactionHandler.createTransactionTagihan s p uid
        r o).1.orders r.orderId).map OrderDoc.userId = some uid ∧
    ((createTransactionHandler.createTransactionTagihan s p uid
        r o).1.tagihan r.orderId).isSome = true ∧
    ((createTransactionHandler.createTransactionTagihan s p uid
        r o).2.2).snapOf =
      ((createTransactionHandler.createTransactionTagihan s p uid
          r o).2.1.txns r.orderId).map
        (fun e1 => (some e1.snap_token, some e1.redirect_url)) := by
  rcases htg : s.tagihan r.orderId with _ | tg <;>
  rcases hp : p.txns r.orderId with _ | e <;>
  cases hpf : p.createFails <;>
  rcases htx : s.transactions r.orderId with _ | t0 <;>
  simp [createTransactionHandler.createTransactionTagihan,
    createTransactionHandler.createTransactionSnap, finishCreateTx,
    providerCreate, CreateTxResult.snapOf, htg, hp, hpf, htx, ho, hou,
    upd_same]

/-- The same invariants for a full create-transaction call, under the
hypothesis that the call succeeded (which rules out the access-denied
answer). -/
theorem createTx_invariants (s : Store) (p : Provider) (uid : String)
    (r : CreateTxRequest)
    (hok : ((createTransactionHandler s p uid r).2.2).isOk = true) :
    ((createTransactionHandler s p uid r).1.orders r.orderId).map
      OrderDoc.userId = some uid ∧
    ((createTransactionHandler s p uid r).1.tagihan r.orderId).isSome =
      true ∧
    ((createTransactionHandler s p uid r).2.2).snapOf =
      ((createTransactionHandler s p uid r).2.1.txns r.orderId).map
        (fun e1 => (some e1.snap_token, some e1.redirect_url)) := by
  rcases ho : s.orders r.orderId with _ | o
  · have hred : createTransactionHandler s p uid r =
        createTransactionHandler.createTransactionTagihan
          { s with orders := upd s.orders r.orderId (some
            { bookingId := r.bookingId, orderId := r.orderId,
              amount := r.amount, userId := uid, status := "pending",
              updatedAt := s.now }) } p uid r
          { bookingId := r.bookingId, orderId := r.orderId,
            amount := r.amount, userId := uid, status := "pending",
            updatedAt := s.now } := by
      simp [createTransactionHandler, ho]
    rw [hred]
    exact createTxTagihan_invariants _ p uid r _ (by simp [upd_same]) rfl
  · by_cases hou : o.userId = uid
    · have hred : createTransactionHandler s p uid r =
          createTransactionHandler.createTransactionTagihan s p uid r o := by
        simp [createTransactionHandler, ho, hou]
      rw [hred]
      exact createTxTagihan_invariants s p uid r o ho hou
    · exfalso
      simp [createTransactionHandler, ho, hou, CreateTxResult.isOk] at hok

/-- A create-transaction call on a state whose order is owned by the
caller and whose provider already holds a transaction for the order id:
no create call is issued and the response reuses the provider's held
token and redirect URL verbatim. -/
theorem createTx_reuse (s : Store) (p : Provider) (uid : String)
    (r : CreateTxRequest) (o : OrderDoc) (e : ProviderTxn)
    (ho : s.orders r.orderId = some o) (hou : o.userId = uid)
    (hp : p.txns r.orderId = some e) :
    (createTransactionHandler s p uid r).2.1.createCalls = p.createCalls ∧
    ((createTransactionHandler s p uid r).2.2).snapOf =
      some (some e.snap_token, some e.redirect_url) ∧
    ((createTransactionHandler s p uid r).2.2).isOk = true := by
  rcases htg : s.tagihan r.orderId with _ | tg <;>
  rcases htx : s.transactions r.orderId with _ | t0 <;>
  simp [createTransactionHandler,
    createTransactionHandler.createTransactionTagihan,
    createTransactionHandler.createTransactionSnap, finishCreateTx,
    CreateTxResult.snapOf, CreateTxResult.isOk, ho, hou, htg, hp, htx,
    upd_same]

/-- Claim C4: create-transaction is idempotent per order id — after a
successful first invocation (whose success means the provider now holds
a transaction for the order id), invoking it a second time issues no
further create call to the provider, succeeds, and returns the same
snap token and redirect URL as the first invocation. -/
theorem c4_idempotent_creation (s : Store) (p : Provider) (uid : String)
    (r : CreateTxRequest)
    (hok : ((createTransactionHandler s p uid r).2.2).isOk = true) :
    (createTransactionHandler (createTransactionHandler s p uid r).1
        (createTransactionHandler s p uid r).2.1 uid r).2.1.createCalls =
      (createTransactionHandler s p uid r).2.1.createCalls ∧
    ((createTransactionHandler (createTransactionHandler s p uid r).1
        (createTransactionHandler s p uid r).2.1 uid r).2.2).snapOf =
      ((createTransactionHandler s p uid r).2.2).snapOf ∧
    ((createTransactionHandler (createTransactionHandler s p uid r).1
        (createTransactionHandler s p uid r).2.1 uid r).2.2).isOk =
      true := by
  obtain ⟨h1, h2, h3⟩ := createTx_invariants s p uid r hok
  rcases hmo : (createTransactionHandler s p uid r).1.orders r.orderId
    with _ | o2
  · rw [hmo] at h1
    simp at h1
  · rw [hmo] at h1
    simp at h1
    rcases hres : (createTransactionHandler s p uid r).2.2 with d | ⟨code, msg⟩
    · rw [hres] at h3
      simp only [CreateTxResult.snapOf] at h3
      rcases hpe : (createTransactionHandler s p uid r).2.1.txns r.orderId
        with _ | e
      · rw [hpe] at h3
        simp at h3
      · rw [hpe] at h3
        simp at h3
        obtain ⟨hc, hsnap, hok2⟩ := createTx_reuse
          (createTransactionHandler s p uid r).1
          (createTransactionHandler s p uid r).2.1 uid r o2 e hmo h1 hpe
        refine ⟨hc, ?_, hok2⟩
        rw [hsnap]
        simp [CreateTxResult.snapOf, h3.1, h3.2]
    · rw [hres] at hok
      simp [CreateTxResult.isOk] at hok

/-- Witness for C4: two create-transaction calls for `ORD-6` starting
from the empty store — the second issues no create call, succeeds, and
returns the token/redirect pair of the first. -/
theorem c4_idempotent_creation_witness :
    (createTransactionHandler
        (createTransactionHandler emptyStore p0 "user-1" ctReq).1
        (createTransactionHandler emptyStore p0 "user-1" ctReq).2.1
        "user-1" ctReq).2.1.createCalls =
      (createTransactionHandler emptyStore p0 "user-1"
        ctReq).2.1.createCalls ∧
    ((createTransactionHandler
        (createTransactionHandler emptyStore p0 "user-1" ctReq).1
        (createTransactionHandler emptyStore p0 "user-1" ctReq).2.1
        "user-1" ctReq).2.2).snapOf =
      ((createTransactionHandler emptyStore p0 "user-1"
        ctReq).2.2).snapOf ∧
    ((createTransactionHandler
        (createTransactionHandler emptyStore p0 "user-1" ctReq).1
        (createTransactionHandler emptyStore p0 "user-1" ctReq).2.1
        "user-1" ctReq).2.2).isOk = true :=
  c4_idempotent_creation emptyStore p0 "user-1" ctReq (by decide)


end BeKlinik
